import Mathlib

/-!
Shallow embedding of the Tor-based transcript-fetching engine of
YouTube-Study-Buddy, covering:

* `tor_exit_manager.py` — instance discovery (`_detect_instances`) and
  round-robin worker assignment (`get_fetcher_for_worker`);
* `tor_transcript_fetcher.py` — the availability pre-check
  (`check_transcript_availability`), the retrying fetch loop
  (`fetch_transcript`), the attempt recorder (`_record_attempt`),
  the yt-dlp fallback wrapper (`fetch_with_fallback`), and circuit
  rotation (`rotate_tor_circuit`).

Network and I/O effects are abstracted by oracle functions supplied in
environment structures: each oracle answers "what would this network
call return (or would it raise) at this point of the control flow".
The control flow itself (loops, indices, exception handlers, recorded
tracker rows, degradation flag) is translated statement by statement
from the Python source.
-/

namespace YtStudyBuddy

/-- One Tor daemon instance, as in the `TorInstance` dataclass of
`tor_exit_manager.py`. -/
structure TorInstance where
  instance_id : Nat
  socks_port : Nat
  control_port : Nat
deriving DecidableEq, Repr

/-- The `for i in range(max_instances)` loop of
`TorExitNodeManager._detect_instances`, recursing on the remaining
iteration count (`fuel`).  `isOpen` abstracts `_is_port_open` on
127.0.0.1.  The loop appends an instance per open probed port and
breaks at the first closed one. -/
def detectIter (isOpen : Nat → Bool) (base_socks base_control increment : Nat) :
    Nat → Nat → List TorInstance
  | _, 0 => []
  | i, fuel + 1 =>
    if isOpen (base_socks + i * increment) then
      TorInstance.mk (i + 1) (base_socks + i * increment) (base_control + i * increment)
        :: detectIter isOpen base_socks base_control increment (i + 1) fuel
    else []

/-- `TorExitNodeManager._detect_instances`: run the probing loop; if
nothing was detected, synthesize the single default instance
`TorInstance(1, 9050, 9051)`. -/
def _detect_instances (isOpen : Nat → Bool)
    (base_socks_port base_control_port port_increment max_instances : Nat) :
    List TorInstance :=
  let detected := detectIter isOpen base_socks_port base_control_port port_increment
    0 max_instances
  if detected.isEmpty then [TorInstance.mk 1 9050 9051] else detected

/-- `TorExitNodeManager.get_fetcher_for_worker`, reduced to the instance
it assigns: `instance_idx = worker_id % len(self.instances)` followed by
`self.instances[instance_idx]` (the returned fetcher is configured from
exactly that instance's host and ports). -/
def get_fetcher_for_worker (instances : List TorInstance) (worker_id : Nat) :
    Option TorInstance :=
  instances.get? (worker_id % instances.length)

/-- Result of a successful `YouTubeTranscriptApi.list_transcripts` call:
`find_ok lang` tells whether `transcript_list.find_transcript([lang])`
succeeds, and `language_codes` is what iterating the listing yields. -/
structure TranscriptList where
  find_ok : String → Bool
  language_codes : List String

/-- `TorTranscriptFetcher.check_transcript_availability` (the body of
`TranscriptFetcher.check_transcript_availability` is identical).
`listing = none` means `list_transcripts` raised, which the outer
`except` turns into `(True, None)`.  Otherwise the first requested
language that `find_transcript` accepts yields `(True, None)`; if none
is accepted the result is `(False, message)` built from the available
language codes. -/
def check_transcript_availability (listing : Option TranscriptList)
    (languages : List String) : Bool × Option String :=
  match listing with
  | none => (true, none)
  | some tl =>
    match languages.find? (fun lang => tl.find_ok lang) with
    | some _ => (true, none)
    | none =>
      if tl.language_codes.isEmpty then
        (false, some "No transcripts available for this video")
      else
        (false, some ("No transcript in " ++ toString languages ++ ", available: "
          ++ toString (tl.language_codes.take 5)))

/-- The adaptive timeout of `fetch_transcript`, line
`timeout = min(base_timeout * (1.5 ** attempt), max_timeout)` with the
0-based loop index `attempt`. -/
def attempt_timeout (base_timeout max_timeout : ℚ) (attempt : Nat) : ℚ :=
  min (base_timeout * (3 / 2 : ℚ) ^ attempt) max_timeout

/-- One row recorded in the daily exit-node tracker by
`DailyExitTracker.record_attempt`. -/
structure AttemptRecord where
  exit_ip : String
  video_id : String
  attempt : Nat
  success : Bool
deriving DecidableEq, Repr

/-- `TorTranscriptFetcher._record_attempt`.  `exit_ip` is the argument of
the Python method (`none` models the caller passing `exit_ip=None`);
`probe` is the outcome of the method's own `api.ipify.org` request
(`none` models that request raising, in which case the identity is
recorded as "unknown" rather than the row being dropped). -/
def _record_attempt (probe : Option String) (video_id : String) (attempt : Nat)
    (success : Bool) (exit_ip : Option String) : AttemptRecord :=
  let ip := match exit_ip with
    | some ip => ip
    | none => probe.getD "unknown"
  AttemptRecord.mk ip video_id attempt success

/-- The transcript dictionary returned by a successful fetch, reduced to
the fields the claims mention. -/
structure FetchResult where
  transcript : String
  length : Nat
  method : String
deriving DecidableEq, Repr

/-- Oracles for one `fetch_transcript` call.  `listing` feeds the
availability pre-check; for the 0-based loop iteration `i`,
`fetch_ok i` tells whether `api.fetch` succeeds, `probe_ip i` is the
outcome of the exit-IP probe issued directly by `fetch_transcript`
around recording, and `record_probe i` the outcome of the probe inside
`_record_attempt` when it is called with `exit_ip=None`.  `content` is
the cleaned transcript text obtained on success. -/
structure FetchEnv where
  listing : Option TranscriptList
  fetch_ok : Nat → Bool
  probe_ip : Nat → Option String
  record_probe : Nat → Option String
  content : String

/-- The `for attempt in range(max_retries)` loop of `fetch_transcript`,
recursing on the remaining iteration count.  On success the code records
the attempt as `attempt + 1` with the loop variable unchanged (the
0-based index `i`, hence number `i + 1`); on failure the handler first
rebinds `attempt = attempt + 1` and then records `attempt + 1`, hence
number `i + 2`.  In both cases exactly one row is recorded: with the
probed exit IP when `probe_ip` answers, else via `_record_attempt`'s
`exit_ip=None` path. -/
def fetchLoop (env : FetchEnv) (video_id : String) :
    Nat → Nat → List AttemptRecord → Option FetchResult × List AttemptRecord
  | _, 0, recs => (none, recs)
  | i, fuel + 1, recs =>
    if env.fetch_ok i then
      let r := _record_attempt (env.record_probe i) video_id (i + 1) true (env.probe_ip i)
      (some (FetchResult.mk env.content env.content.length "tor"), recs ++ [r])
    else
      let r := _record_attempt (env.record_probe i) video_id (i + 2) false (env.probe_ip i)
      fetchLoop env video_id (i + 1) fuel (recs ++ [r])

/-- `TorTranscriptFetcher.fetch_transcript`: when `check_availability`
is set and `check_transcript_availability` reports unavailable, return
`None` before the retry loop (no attempt recorded); otherwise run the
retry loop.  Returns the result together with the tracker rows recorded
during the call. -/
def fetch_transcript (env : FetchEnv) (video_id : String) (languages : List String)
    (max_retries : Nat) (check_availability : Bool) :
    Option FetchResult × List AttemptRecord :=
  if check_availability && !(check_transcript_availability env.listing languages).1 then
    (none, [])
  else
    fetchLoop env video_id 0 max_retries []

/-- Oracles for one `fetch_with_fallback` call: the primary-path oracles
plus the outcome of `self.ytdlp_fallback.fetch_transcript`. -/
structure FallbackEnv where
  fetchEnv : FetchEnv
  ytdlp : Option FetchResult

/-- `TorTranscriptFetcher.fetch_with_fallback`: try
`fetch_transcript(video_id, languages)` (defaults `max_retries=5`,
`check_availability=True`); on `None`, invoke the yt-dlp fallback once
and tag its result with method "yt-dlp".  The third component counts
invocations of `ytdlp_fallback.fetch_transcript`. -/
def fetch_with_fallback (env : FallbackEnv) (video_id : String)
    (languages : List String) : Option FetchResult × List AttemptRecord × Nat :=
  match fetch_transcript env.fetchEnv video_id languages 5 true with
  | (some r, recs) => (some r, recs, 0)
  | (none, recs) =>
    match env.ytdlp with
    | some yr => (some { yr with method := "yt-dlp" }, recs, 1)
    | none => (none, recs, 1)

/-- Outcome of one `Controller.from_port` + `authenticate` block in
`rotate_tor_circuit`: the control channel connects, or raises a
connection-level error (`ConnectionRefusedError`/`OSError`/`SocketError`),
or raises any other exception (authentication / protocol error). -/
inductive ConnKind where
  | ok : ConnKind
  | connError : ConnKind
  | authError : ConnKind
deriving DecidableEq, Repr

/-- Oracles for one `rotate_tor_circuit` call: `conn a` is the outcome
of connection attempt `a` (0-based), `probe a k` the outcome of the
exit-IP confirmation probe at rotation attempt `k` within connection
attempt `a`, and `failed_ips` is `daily_tracker.get_failed_ips_today()`. -/
structure RotateEnv where
  conn : Nat → ConnKind
  probe : Nat → Nat → Option String
  failed_ips : List String

/-- The `while rotation_attempts < max_rotation_attempts` loop inside
`rotate_tor_circuit._do_rotation`, recursing on the remaining iteration
count.  Each iteration signals NEWNYM and probes the new exit IP; the
second component counts iterations (NEWNYM signals) executed.  A probed
IP in the avoid set continues the loop; a probed IP outside it returns
success at once; a failed probe is treated as success ("rotation
occurred, IP verification failed"); exhausting the budget returns
failure. -/
def rotationLoop (failed : List String) (probe : Nat → Option String) :
    Nat → Nat → Bool × Nat
  | _, 0 => (false, 0)
  | k, fuel + 1 =>
    match probe k with
    | none => (true, 1)
    | some ip =>
      if ip ∈ failed then
        let r := rotationLoop failed probe (k + 1) fuel
        (r.1, r.2 + 1)
      else (true, 1)

/-- The `for attempt in range(max_retries)` loop of
`rotate_tor_circuit._do_rotation`, recursing on the remaining iteration
count (so `a + fuel = max_retries` at every call).  Returns
(result, `_control_port_available` after the call, number of control
channel connection attempts made).  A connected attempt runs the inner
rotation loop and returns its outcome, leaving the flag available; a
connection error on a non-final attempt retries; on the final attempt it
clears the flag and the loop then falls through to `return False`; any
other exception clears the flag and returns `False` immediately. -/
def rotateOuter (env : RotateEnv) (max_retries max_rotation_attempts : Nat) :
    Nat → Nat → Bool × Bool × Nat
  | _, 0 => (false, true, 0)
  | a, fuel + 1 =>
    match env.conn a with
    | ConnKind.ok =>
      ((rotationLoop env.failed_ips (env.probe a) 0 max_rotation_attempts).1, true, 1)
    | ConnKind.connError =>
      if a < max_retries - 1 then
        let r := rotateOuter env max_retries max_rotation_attempts (a + 1) fuel
        (r.1, r.2.1, r.2.2 + 1)
      else (false, false, 1)
    | ConnKind.authError => (false, false, 1)

/-- `TorTranscriptFetcher.rotate_tor_circuit`: if
`_control_port_available` is already `False`, return `False` without
touching the control channel; otherwise run `_do_rotation`.  Returns
(result, `_control_port_available` after the call, connection attempts
made). -/
def rotate_tor_circuit (control_port_available : Bool) (env : RotateEnv)
    (max_retries max_rotation_attempts : Nat) : Bool × Bool × Nat :=
  if control_port_available then
    rotateOuter env max_retries max_rotation_attempts 0 max_retries
  else
    (false, false, 0)

/-! Concrete environments used by witnesses and counterexamples. -/

/-- A listing with no transcript in any language: the availability check
reports unavailable. -/
def unavailableListing : TranscriptList :=
  TranscriptList.mk (fun _ => false) []

/-- A listing that accepts every requested language: the availability
check reports available. -/
def availableListing : TranscriptList :=
  TranscriptList.mk (fun _ => true) ["en"]

/-- Environment for the C1 scenario: structurally unavailable resource,
yt-dlp fallback present. -/
def c1Env : FallbackEnv :=
  FallbackEnv.mk
    (FetchEnv.mk (some unavailableListing) (fun _ => true) (fun _ => none)
      (fun _ => none) "text")
    (some (FetchResult.mk "fallback text" 13 "generic"))

/-- Environment for the C2 scenario: resource available, every primary
attempt fails, exit-IP probes succeed. -/
def c2Env : FallbackEnv :=
  FallbackEnv.mk
    (FetchEnv.mk (some availableListing) (fun _ => false)
      (fun _ => some "203.0.113.7") (fun _ => none) "text")
    (some (FetchResult.mk "fallback text" 13 "generic"))

/-- Environment for the C3 scenario: resource available, every primary
attempt fails, and both identity probes fail too. -/
def c3Env : FetchEnv :=
  FetchEnv.mk (some availableListing) (fun _ => false) (fun _ => none)
    (fun _ => none) "text"

/-- Rotation environment where every control connection attempt raises a
connection-level error. -/
def connErrEnv : RotateEnv :=
  RotateEnv.mk (fun _ => ConnKind.connError) (fun _ _ => some "198.51.100.1") []

/-- Rotation environment where the first control connection attempt
raises an authentication error. -/
def authErrEnv : RotateEnv :=
  RotateEnv.mk (fun _ => ConnKind.authError) (fun _ _ => some "198.51.100.1") []

/-- Rotation environment: connection succeeds, the first probed identity
is the failed-today "A", the second is the fresh "C". -/
def avoidEnv : RotateEnv :=
  RotateEnv.mk (fun _ => ConnKind.ok)
    (fun _ k => if k = 0 then some "A" else some "C") ["A", "B"]

/-- Rotation environment: connection succeeds and the identity
confirmation probe raises. -/
def probeFailEnv : RotateEnv :=
  RotateEnv.mk (fun _ => ConnKind.ok) (fun _ _ => none) ["A"]

/-- Port oracle with 9050 and 9052 open, 9054 closed, and a port beyond
the gap (9056) open again. -/
def portsGap : Nat → Bool :=
  fun p => p == 9050 || p == 9052 || p == 9056

/-- Port oracle with every port closed. -/
def portsNone : Nat → Bool :=
  fun _ => false

/-- A contiguous three-instance list as discovery produces it. -/
def threeInstances : List TorInstance :=
  [TorInstance.mk 1 9050 9051, TorInstance.mk 2 9052 9053, TorInstance.mk 3 9054 9055]

/-! Helper lemmas shared by several claims. -/

/-- If every primary fetch attempt fails, the retry loop returns `None`
and appends exactly one tracker row per remaining iteration. -/
theorem fetchLoop_all_fail (env : FetchEnv) (vid : String)
    (hf : ∀ i, env.fetch_ok i = false) :
    ∀ fuel i recs, (fetchLoop env vid i fuel recs).1 = none ∧
      (fetchLoop env vid i fuel recs).2.length = recs.length + fuel := by
  intro fuel
  induction fuel with
  | zero => intro i recs; simp [fetchLoop]
  | succ n ih =>
    intro i recs
    simp only [fetchLoop, hf i, Bool.false_eq_true, if_false]
    obtain ⟨h1, h2⟩ := ih (i + 1)
      (recs ++ [_record_attempt (env.record_probe i) vid (i + 2) false (env.probe_ip i)])
    refine ⟨h1, ?_⟩
    rw [h2, List.length_append]
    simp
    omega

/-- When the primary path yields `None`, `fetch_with_fallback` invokes
the yt-dlp fallback exactly once. -/
theorem fallback_count_of_none (env : FallbackEnv) (vid : String)
    (langs : List String)
    (h : (fetch_transcript env.fetchEnv vid langs 5 true).1 = none) :
    (fetch_with_fallback env vid langs).2.2 = 1 := by
  unfold fetch_with_fallback
  rcases hE : fetch_transcript env.fetchEnv vid langs 5 true with ⟨res, recs⟩
  rw [hE] at h
  simp only at h
  subst h
  cases env.ytdlp <;> rfl

/-! Claim theorems. -/

/-- Claim C10: for every language list, if the transcript-listing
operation itself raises, `check_transcript_availability` returns
`(True, None)` — a failed availability check is treated as available
and never blocks a fetch attempt. -/
theorem availability_check_error_means_available (languages : List String) :
    check_transcript_availability none languages = (true, none) := rfl

/-- Claim C7: for every 0-based attempt index `n`, the per-attempt
timeout equals `min (base_timeout * 1.5 ^ n) max_timeout`, is
nondecreasing in `n` (for a nonnegative base timeout), and never
exceeds `max_timeout`. -/
theorem timeout_geometric_growth (b M : ℚ) (n : Nat) (hb : 0 ≤ b) :
    attempt_timeout b M n = min (b * (3 / 2 : ℚ) ^ n) M ∧
    attempt_timeout b M n ≤ attempt_timeout b M (n + 1) ∧
    attempt_timeout b M n ≤ M := by
  refine ⟨rfl, ?_, min_le_right _ _⟩
  have h : b * (3 / 2 : ℚ) ^ n ≤ b * (3 / 2 : ℚ) ^ (n + 1) := by
    have hp : (3 / 2 : ℚ) ^ n ≤ (3 / 2 : ℚ) ^ (n + 1) := by
      apply pow_le_pow_right₀ (by norm_num) (Nat.le_succ n)
    exact mul_le_mul_of_nonneg_left hp hb
  exact min_le_min h le_rfl

/-- Witness for C7 at `base_timeout = 60`, `max_timeout = 120`,
attempt index 1. -/
theorem timeout_geometric_growth_witness :
    attempt_timeout 60 120 1 = min ((60 : ℚ) * (3 / 2 : ℚ) ^ 1) 120 ∧
    attempt_timeout 60 120 1 ≤ attempt_timeout 60 120 2 ∧
    attempt_timeout 60 120 1 ≤ 120 :=
  timeout_geometric_growth 60 120 1 (by norm_num)

/-- Claim C9: worker assignment is `instances[worker_id % len(instances)]`;
on a contiguous instance list it yields
`instance_id = worker_id % instance_count + 1`, and two calls with the
same worker id and the same instance list agree. -/
theorem worker_assignment_round_robin (instances : List TorInstance) (w : Nat)
    (hne : instances ≠ [])
    (hc : ∀ i (h : i < instances.length), (instances.get ⟨i, h⟩).instance_id = i + 1) :
    (∃ h : w % instances.length < instances.length,
      get_fetcher_for_worker instances w =
        some (instances.get ⟨w % instances.length, h⟩) ∧
      (instances.get ⟨w % instances.length, h⟩).instance_id =
        w % instances.length + 1) ∧
    get_fetcher_for_worker instances w = get_fetcher_for_worker instances w := by
  have hlen : 0 < instances.length := List.length_pos.mpr hne
  have hmod : w % instances.length < instances.length := Nat.mod_lt _ hlen
  exact ⟨⟨hmod, List.get?_eq_get hmod, hc _ hmod⟩, rfl⟩

/-- Witness for C9: worker 7 on a contiguous three-instance list is
assigned instance 2 (index 7 mod 3 = 1). -/
theorem worker_assignment_round_robin_witness :
    (∃ h : 7 % threeInstances.length < threeInstances.length,
      get_fetcher_for_worker threeInstances 7 =
        some (threeInstances.get ⟨7 % threeInstances.length, h⟩) ∧
      (threeInstances.get ⟨7 % threeInstances.length, h⟩).instance_id =
        7 % threeInstances.length + 1) ∧
    get_fetcher_for_worker threeInstances 7 = get_fetcher_for_worker threeInstances 7 :=
  worker_assignment_round_robin threeInstances 7 (by decide) (by decide)

/-- Claim C8: discovery probes ports `base, base+inc, base+2*inc, …`
and stops at the first closed one, so with 9050 and 9052 open and 9054
closed it returns exactly 2 instances whatever the ports beyond the gap
do; and when the first probed port is already closed (hence no port is
reached) it synthesizes the single default instance. -/
theorem instance_discovery_gap_and_default :
    (∀ (isOpen : Nat → Bool) (m : Nat), isOpen 9050 = true → isOpen 9052 = true →
      isOpen 9054 = false → 3 ≤ m →
      (_detect_instances isOpen 9050 9051 2 m).length = 2) ∧
    (∀ (isOpen : Nat → Bool) (bs bc inc m : Nat), isOpen bs = false →
      _detect_instances isOpen bs bc inc m = [TorInstance.mk 1 9050 9051]) := by
  constructor
  · intro isOpen m h1 h2 h3 hm
    obtain ⟨k, rfl⟩ : ∃ k, m = k + 1 + 1 + 1 := ⟨m - 3, by omega⟩
    simp [_detect_instances, detectIter, h1, h2, h3]
  · intro isOpen bs bc inc m h
    cases m with
    | zero => simp [_detect_instances, detectIter]
    | succ n => simp [_detect_instances, detectIter, h]

/-- Witness for C8: with 9050 and 9052 open, 9054 closed and 9056 open
again, exactly 2 instances are found; with all ports closed the default
instance is synthesized. -/
theorem instance_discovery_gap_and_default_witness :
    (_detect_instances portsGap 9050 9051 2 10).length = 2 ∧
    _detect_instances portsNone 9050 9051 2 10 = [TorInstance.mk 1 9050 9051] :=
  ⟨instance_discovery_gap_and_default.1 portsGap 10 (by decide) (by decide)
      (by decide) (by decide),
   instance_discovery_gap_and_default.2 portsNone 9050 9051 2 10 (by decide)⟩

/-- Claim C1 counterexample: on a structurally unavailable resource the
primary path returns `None` with zero recorded attempts, yet
`fetch_with_fallback` invokes the yt-dlp fallback (once, not zero
times) — the fallback triggers on any `None` from the primary path,
contradicting "the secondary fetcher is not invoked". -/
theorem unavailable_still_invokes_fallback :
    (check_transcript_availability c1Env.fetchEnv.listing ["en"]).1 = false ∧
    fetch_transcript c1Env.fetchEnv "vid" ["en"] 5 true = (none, []) ∧
    ¬ (fetch_with_fallback c1Env "vid" ["en"]).2.2 = 0 :=
  ⟨rfl, rfl, by decide⟩

/-- Claim C1 (amended): if the availability check reports the resource
unavailable, `fetch_transcript` returns `None` immediately with zero
attempts recorded in the tracker; `fetch_with_fallback` then still
invokes the secondary fetcher, exactly once, as it does for any primary
failure. -/
theorem unavailable_fail_fast (env : FallbackEnv) (vid : String)
    (langs : List String)
    (h : (check_transcript_availability env.fetchEnv.listing langs).1 = false) :
    fetch_transcript env.fetchEnv vid langs 5 true = (none, []) ∧
    (fetch_with_fallback env vid langs).2.1 = [] ∧
    (fetch_with_fallback env vid langs).2.2 = 1 := by
  have h1 : fetch_transcript env.fetchEnv vid langs 5 true = (none, []) := by
    simp [fetch_transcript, h]
  refine ⟨h1, ?_, fallback_count_of_none env vid langs (by rw [h1])⟩
  unfold fetch_with_fallback
  rw [h1]
  cases env.ytdlp <;> rfl

/-- Witness for the amended C1 on a listing with no transcripts. -/
theorem unavailable_fail_fast_witness :
    fetch_transcript c1Env.fetchEnv "vid" ["en"] 5 true = (none, []) ∧
    (fetch_with_fallback c1Env "vid" ["en"]).2.1 = [] ∧
    (fetch_with_fallback c1Env "vid" ["en"]).2.2 = 1 :=
  unavailable_fail_fast c1Env "vid" ["en"] rfl

/-- Claim C2: with the resource available and every primary attempt
failing, `fetch_transcript` (at the `max_retries = 5` default used by
`fetch_with_fallback`) records exactly 5 attempts in the tracker and
returns `None`, after which `fetch_with_fallback` invokes the yt-dlp
fallback's fetch exactly once. -/
theorem five_failures_then_fallback_once (env : FallbackEnv) (vid : String)
    (langs : List String)
    (ha : (check_transcript_availability env.fetchEnv.listing langs).1 = true)
    (hf : ∀ i, env.fetchEnv.fetch_ok i = false) :
    (fetch_transcript env.fetchEnv vid langs 5 true).1 = none ∧
    (fetch_transcript env.fetchEnv vid langs 5 true).2.length = 5 ∧
    (fetch_with_fallback env vid langs).2.2 = 1 := by
  have hft : fetch_transcript env.fetchEnv vid langs 5 true
      = fetchLoop env.fetchEnv vid 0 5 [] := by
    simp [fetch_transcript, ha]
  obtain ⟨h1, h2⟩ := fetchLoop_all_fail env.fetchEnv vid hf 5 0 []
  refine ⟨by rw [hft]; exact h1, by rw [hft, h2]; rfl, ?_⟩
  exact fallback_count_of_none env vid langs (by rw [hft]; exact h1)

/-- Witness for C2 with all five attempts failing and probes that do
resolve the exit IP. -/
theorem five_failures_then_fallback_once_witness :
    (fetch_transcript c2Env.fetchEnv "vid" ["en"] 5 true).1 = none ∧
    (fetch_transcript c2Env.fetchEnv "vid" ["en"] 5 true).2.length = 5 ∧
    (fetch_with_fallback c2Env "vid" ["en"]).2.2 = 1 :=
  five_failures_then_fallback_once c2Env "vid" ["en"] rfl (fun _ => rfl)

/-- Claim C3, evaluated at a concrete run where both attempts fail and
every identity probe fails too: both rows are recorded with identity
"unknown" (not dropped), but with attempt numbers 2 and 3 instead of
the 1-based 1 and 2 — the failure handler rebinds
`attempt = attempt + 1` and then passes `attempt + 1` to
`_record_attempt`, whose docstring says the argument is 1-based (the
success path does record `attempt + 1` with the loop variable
unchanged, i.e. the correct 1-based number). -/
theorem failed_attempt_numbers_off_by_one :
    (fetch_transcript c3Env "vid" ["en"] 2 true).2.map (fun r => r.attempt) = [2, 3] ∧
    (fetch_transcript c3Env "vid" ["en"] 2 true).2.map (fun r => r.exit_ip)
      = ["unknown", "unknown"] ∧
    (fetch_transcript c3Env "vid" ["en"] 2 true).1 = none :=
  ⟨rfl, rfl, rfl⟩

/-- When every control-channel connection attempt raises a
connection-level error, the rotation loop makes exactly one attempt per
remaining iteration, clears the availability flag on the final one, and
returns failure. -/
theorem rotateOuter_all_connError (env : RotateEnv) (mr mra : Nat)
    (hc : ∀ a, env.conn a = ConnKind.connError) :
    ∀ fuel a, a + fuel = mr → 0 < fuel →
      rotateOuter env mr mra a fuel = (false, false, fuel) := by
  intro fuel
  induction fuel with
  | zero => intro a _ h; omega
  | succ n ih =>
    intro a hsum _
    simp only [rotateOuter, hc a]
    cases n with
    | zero =>
      have hlt : ¬ a < mr - 1 := by omega
      simp [hlt]
    | succ m =>
      have hlt : a < mr - 1 := by omega
      have hrec := ih (a + 1) (by omega) (by omega)
      simp [hlt, hrec]

/-- Claim C4: degradation is one-way.  (i) With the flag already
cleared, the call returns `False`, leaves the flag cleared, and makes
zero control-channel connection attempts.  (ii) The flag after a call
can only be set if it was set before the call — it is never reset to
available.  (iii) `max_retries` consecutive connection failures clear
the flag (after exactly `max_retries` connection attempts, returning
`False`).  (iv) An authentication/protocol error clears it immediately,
after a single connection attempt. -/
theorem degradation_one_way :
    (∀ env mr mra, rotate_tor_circuit false env mr mra = (false, false, 0)) ∧
    (∀ avail env mr mra,
      (rotate_tor_circuit avail env mr mra).2.1 = true → avail = true) ∧
    (∀ env mr mra, 0 < mr → (∀ a, env.conn a = ConnKind.connError) →
      rotate_tor_circuit true env mr mra = (false, false, mr)) ∧
    (∀ env mr mra, 0 < mr → env.conn 0 = ConnKind.authError →
      rotate_tor_circuit true env mr mra = (false, false, 1)) := by
  refine ⟨fun env mr mra => rfl, ?_, ?_, ?_⟩
  · intro avail env mr mra h
    cases avail with
    | false => simp [rotate_tor_circuit] at h
    | true => rfl
  · intro env mr mra hmr hc
    have := rotateOuter_all_connError env mr mra hc mr 0 (by omega) hmr
    simpa [rotate_tor_circuit] using this
  · intro env mr mra hmr h0
    cases mr with
    | zero => omega
    | succ n => simp [rotate_tor_circuit, rotateOuter, h0]

/-- Witness for C4: the degraded call, flag monotonicity on a
successful rotation, all-connection-failures degradation at
`max_retries = 3`, and immediate degradation on an auth error. -/
theorem degradation_one_way_witness :
    rotate_tor_circuit false connErrEnv 3 5 = (false, false, 0) ∧
    true = true ∧
    rotate_tor_circuit true connErrEnv 3 5 = (false, false, 3) ∧
    rotate_tor_circuit true authErrEnv 3 5 = (false, false, 1) :=
  ⟨degradation_one_way.1 connErrEnv 3 5,
   degradation_one_way.2.1 true probeFailEnv 3 5 (by decide),
   degradation_one_way.2.2.1 connErrEnv 3 5 (by decide) (fun _ => rfl),
   degradation_one_way.2.2.2 authErrEnv 3 5 (by decide) rfl⟩

/-- The avoid-set loop never issues more NEWNYM signals than its
remaining iteration budget. -/
theorem rotationLoop_count_le (failed : List String) (probe : Nat → Option String) :
    ∀ fuel k, (rotationLoop failed probe k fuel).2 ≤ fuel := by
  intro fuel
  induction fuel with
  | zero => intro k; simp [rotationLoop]
  | succ n ih =>
    intro k
    simp only [rotationLoop]
    cases hp : probe k with
    | none => simp
    | some ip =>
      by_cases hm : ip ∈ failed
      · have := ih (k + 1)
        simp only [hm, if_pos]
        simpa using Nat.succ_le_succ this
      · simp [hm]

/-- If the first `t` probed identities (from start index `k`) are all
in the avoid set and the probe at offset `t` yields an identity outside
it, the loop accepts that identity at once, with exactly `t + 1`
iterations. -/
theorem rotationLoop_accepts_first_fresh (failed : List String)
    (probe : Nat → Option String) :
    ∀ t k fuel, t < fuel →
      (∀ j, j < t → ∃ ipj, probe (k + j) = some ipj ∧ ipj ∈ failed) →
      ∀ ip, probe (k + t) = some ip → ip ∉ failed →
      rotationLoop failed probe k fuel = (true, t + 1) := by
  intro t
  induction t with
  | zero =>
    intro k fuel hfuel _ ip hp hnm
    cases fuel with
    | zero => omega
    | succ n =>
      rw [Nat.add_zero] at hp
      simp [rotationLoop, hp, hnm]
  | succ m ih =>
    intro k fuel hfuel hbad ip hp hnm
    cases fuel with
    | zero => omega
    | succ n =>
      obtain ⟨ip0, hp0, hm0⟩ := hbad 0 (Nat.succ_pos m)
      rw [Nat.add_zero] at hp0
      have hrec := ih (k + 1) n (by omega)
        (fun j hj => by
          obtain ⟨ipj, hj1, hj2⟩ := hbad (j + 1) (by omega)
          rw [show k + (j + 1) = k + 1 + j by omega] at hj1
          exact ⟨ipj, hj1, hj2⟩)
        ip (by rw [show k + 1 + m = k + (m + 1) by omega]; exact hp) hnm
      simp [rotationLoop, hp0, hm0, hrec]

/-- Claim C5: within one rotation call the avoid-set loop runs at most
`max_rotation_attempts` iterations (one NEWNYM signal each), and when
the first `t` probed identities failed today while the next probe
yields a fresh one, the loop returns success immediately at that probe,
having made exactly `t + 1` rotation attempts. -/
theorem avoid_loop_bounded_and_accepts (failed : List String)
    (probe : Nat → Option String) (max_rot t : Nat) (ip : String)
    (ht : t < max_rot)
    (hbad : ∀ j, j < t → ∃ ipj, probe j = some ipj ∧ ipj ∈ failed)
    (hfresh : probe t = some ip) (hnm : ip ∉ failed) :
    (rotationLoop failed probe 0 max_rot).2 ≤ max_rot ∧
    rotationLoop failed probe 0 max_rot = (true, t + 1) := by
  refine ⟨rotationLoop_count_le failed probe max_rot 0, ?_⟩
  exact rotationLoop_accepts_first_fresh failed probe t 0 max_rot ht
    (fun j hj => by simpa using hbad j hj) ip (by simpa using hfresh) hnm

/-- Witness for C5: identities A and B failed today; the loop probes A
(failed, loops again) then C (fresh), accepting C on the second
rotation attempt out of a budget of 5. -/
theorem avoid_loop_bounded_and_accepts_witness :
    (rotationLoop avoidEnv.failed_ips (avoidEnv.probe 0) 0 5).2 ≤ 5 ∧
    rotationLoop avoidEnv.failed_ips (avoidEnv.probe 0) 0 5 = (true, 2) :=
  avoid_loop_bounded_and_accepts avoidEnv.failed_ips (avoidEnv.probe 0) 5 1 "C"
    (by omega)
    (fun j hj => by
      have hj0 : j = 0 := by omega
      subst hj0
      exact ⟨"A", rfl, by decide⟩)
    rfl (by decide)

/-- Claim C6: if the control channel connects and the post-rotation
identity-confirmation probe raises, `rotate_tor_circuit` treats the
rotation as successful and returns `True`. -/
theorem probe_failure_counts_as_success (env : RotateEnv) (mr mra : Nat)
    (hmr : 0 < mr) (hmra : 0 < mra)
    (hok : env.conn 0 = ConnKind.ok) (hprobe : env.probe 0 0 = none) :
    (rotate_tor_circuit true env mr mra).1 = true := by
  cases mr with
  | zero => omega
  | succ n =>
    cases mra with
    | zero => omega
    | succ m => simp [rotate_tor_circuit, rotateOuter, hok, rotationLoop, hprobe]

/-- Witness for C6 on an environment whose confirmation probe always
fails. -/
theorem probe_failure_counts_as_success_witness :
    (rotate_tor_circuit true probeFailEnv 3 5).1 = true :=
  probe_failure_counts_as_success probeFailEnv 3 5 (by decide) (by decide) rfl rfl

end YtStudyBuddy
